import Mathlib

/-!
Shallow embedding of the attendance bot (`bot.py`) and proofs of its
specification claims.  Sheets are modelled as lists of rows, a row being a
list of cell strings; the header row occupies index 0, exactly as
`get_all_values` returns it.  Wall-clock inputs (current date, time string,
weekday) are passed as explicit parameters.
-/

namespace RegistroBot

/-! ### Ledger (Registro sheet) -/

/-- A sheet as returned by `get_all_values`: rows of cell strings,
header row included at index 0. -/
abbrev Sheet := List (List String)

/-- The duplicate test of `save_ingresso`:
`len(row) > 1 and row[0] == today and row[1] == user_id`. -/
def matchesIngresso (today user_id : String) (row : List String) : Bool :=
  decide (1 < row.length) && (row.getD 0 "" == today) && (row.getD 1 "" == user_id)

/-- `save_ingresso`: scan data rows for an existing record of `(today, user_id)`;
if found return `false` with the sheet unchanged, otherwise append one row
`[today, user_id, time_str, location_name, "", ""]` and return `true`. -/
def save_ingresso (rows : Sheet) (today user_id time_str location_name : String) :
    Sheet × Bool :=
  if (rows.drop 1).any (matchesIngresso today user_id) then
    (rows, false)
  else
    (rows ++ [[today, user_id, time_str, location_name, "", ""]], true)

/-- The open-record test of `save_uscita`:
`len(row) > 4 and row[0] == today and row[1] == user_id and not row[4]`
(an empty string is falsy in Python). -/
def isOpenUscita (today user_id : String) (row : List String) : Bool :=
  decide (4 < row.length) && (row.getD 0 "" == today) && (row.getD 1 "" == user_id)
    && (row.getD 4 "" == "")

/-- Write cell `idx` (0-based) of a row, extending the row with empty cells
when it is shorter, as a spreadsheet `update_cell` does. -/
def setCell (row : List String) (idx : Nat) (v : String) : List String :=
  if idx < row.length then row.set idx v
  else row ++ List.replicate (idx - row.length) "" ++ [v]

/-- The in-place update `save_uscita` performs on the matched row:
`update_cell(i, 5, time_str)` then `update_cell(i, 6, location_name)`
(columns 5 and 6 are 0-based cells 4 and 5). -/
def fillUscita (time_str location_name : String) (row : List String) : List String :=
  setCell (setCell row 4 time_str) 5 location_name

/-- Scan of the data rows of `save_uscita`: update the first row satisfying
the open-record test, or report that none exists. -/
def save_uscita_scan (today user_id time_str location_name : String) :
    List (List String) → Option (List (List String))
  | [] => none
  | row :: rest =>
    if isOpenUscita today user_id row then
      some (fillUscita time_str location_name row :: rest)
    else
      (save_uscita_scan today user_id time_str location_name rest).map (row :: ·)

/-- `save_uscita`: find the first data row of `(today, user_id)` whose
check-out time cell is empty; fill its check-out time and zone cells in place
and return `true`, or return `false` with the sheet unchanged. -/
def save_uscita (rows : Sheet) (today user_id time_str location_name : String) :
    Sheet × Bool :=
  match save_uscita_scan today user_id time_str location_name (rows.drop 1) with
  | some rest => (rows.take 1 ++ rest, true)
  | none => (rows, false)

/-! ### Leave requests (Permessi sheet) -/

/-- A calendar date as produced by `datetime.strptime(s, "%Y-%m-%d")`. -/
structure PDate where
  year : Int
  month : Nat
  day : Nat
deriving DecidableEq, Repr

/-- Python `datetime` comparison on dates: lexicographic on
(year, month, day). -/
def dateLt (a b : PDate) : Bool :=
  a.year < b.year ||
    (a.year == b.year && (decide (a.month < b.month) ||
      (a.month == b.month && decide (a.day < b.day))))

/-- One row of the Permessi sheet:
`[created, user_id, start_date, end_date, reason]`. -/
structure Permesso where
  created : String
  utente : String
  dal : PDate
  al : PDate
  motivo : String
deriving DecidableEq, Repr

/-- `save_permesso`: reject (return `false`, no write) when the end date is
strictly before the start date, otherwise append one row carrying the
server-assigned creation timestamp `created` and return `true`. -/
def save_permesso (log : List Permesso) (user_id created : String)
    (start_date end_date : PDate) (reason : String) : List Permesso × Bool :=
  if dateLt end_date start_date then
    (log, false)
  else
    (log ++ [⟨created, user_id, start_date, end_date, reason⟩], true)

/-! ### Calendar navigation (`perm:<phase>:nav:<year>:<month>:<dir>` branch of
`perm_calendar_handler`) -/

/-- The `nav` branch of `perm_calendar_handler`: month/year rollover.  Any
direction other than `"prev"` is treated as `next`, as in the source. -/
def perm_nav (year month : Int) (direction : String) : Int × Int :=
  if direction == "prev" then
    if month == 1 then (year - 1, 12) else (year, month - 1)
  else
    if month == 12 then (year + 1, 1) else (year, month + 1)

/-! ### Webhook ingress -/

/-- Outcome of decoding and dispatching one transport update inside the
`try` block of the `/webhook` handler. -/
abbrev Processing := Except String Unit

/-- The HTTP response of the `/webhook` handler: status code, body, and the
log lines emitted while producing it.  On success it returns the body
`{"ok": True}` with status 200; on any internal failure it logs the error and
returns a JSON error body with status 500. -/
def webhook (processing : Processing) : Nat × String × List String :=
  match processing with
  | .ok _ => (200, "ok:true", [])
  | .error e => (500, "error:" ++ e, ["Errore nel webhook: " ++ e])

/-! ### Zone administration and authorization -/

/-- The static admin allow-list. -/
def ADMINS : List Nat := [614102287]

/-- Conversation states of the zone-administration dialogues
(`AddZoneForm` and `ZoneManagementForm`). -/
inductive ZoneFlowState where
  | addZoneWaitLocation
  | addZoneWaitName
  | renameWaitNewName
deriving DecidableEq, Repr

/-- `/addzone` handler: reject non-admins with no state change; for an admin,
enter the `waiting_for_location` state and prompt for a position. -/
def addzone_start (admins : List Nat) (uid : Nat) (st : Option ZoneFlowState) :
    Option ZoneFlowState × String :=
  if uid ∈ admins then (some .addZoneWaitLocation, "prompt_location")
  else (st, "no_permission")

/-- `/listzones` handler gate: reject non-admins; for an admin, show the zone
list (no conversation-state change either way). -/
def listzones_handler (admins : List Nat) (uid : Nat) (st : Option ZoneFlowState) :
    Option ZoneFlowState × String :=
  if uid ∈ admins then (st, "zones_list")
  else (st, "no_permission")

/-- The `zone_add_new` callback handler: it performs no authorization check;
for any caller it enters the `waiting_for_location` state and prompts for a
position. -/
def zone_add_new_handler (uid : Nat) (st : Option ZoneFlowState) :
    Option ZoneFlowState × String :=
  (some .addZoneWaitLocation, "prompt_location")

/-- The `zone_edit:<name>` callback handler: it performs no authorization
check; for any caller it stores the zone name as the `editing_zone` datum,
enters the `waiting_for_new_name` state and prompts for the new name. -/
def zone_edit_handler (uid : Nat) (name : String) :
    Option ZoneFlowState × String × String :=
  (some .renameWaitNewName, name, "prompt_new_name")

/-- The `zone_delete:<name>` callback handler: it performs no authorization
check; for any caller it shows the confirm/cancel buttons (no state change,
no write yet). -/
def zone_delete_handler (uid : Nat) (name : String) : String × List String :=
  ("confirm_delete_prompt",
   ["zone_confirm_delete:" ++ name, "zone_select:" ++ name])

/-- Scan of `delete_zone` over the data rows of the ZoneLavoro sheet: remove
the first row with at least 3 cells whose name cell equals `name`. -/
def delete_zone_scan (name : String) : List (List String) → Option (List (List String))
  | [] => none
  | row :: rest =>
    if decide (3 ≤ row.length) && (row.getD 0 "" == name) then some rest
    else (delete_zone_scan name rest).map (row :: ·)

/-- `delete_zone`: remove the first matching zone row, returning `true`, or
return `false` with the sheet unchanged. -/
def delete_zone (rows : Sheet) (name : String) : Sheet × Bool :=
  match delete_zone_scan name (rows.drop 1) with
  | some rest => (rows.take 1 ++ rest, true)
  | none => (rows, false)

/-- The `zone_confirm_delete:<name>` callback handler: it performs no
authorization check; for any caller it deletes the zone and reports the
outcome. -/
def zone_confirm_delete_handler (uid : Nat) (rows : Sheet) (name : String) :
    Sheet × String :=
  let res := delete_zone rows name
  (res.1, if res.2 then "removed" else "error")

/-! ### Zone registry read with static fallback -/

/-- The built-in static default zones (name, latitude, longitude). -/
def WORK_LOCATIONS : List (String × ℚ × ℚ) :=
  [("Iveco Vasto", 42.086621, 14.731960),
   ("Unicredit Bologna", 44.486511, 11.338797),
   ("Pallazzo Gallo Osimo", 43.486247, 13.484761),
   ("PF Ponteggi Tolentino", 43.186848, 13.259663),
   ("Unicredit Nocera Umbra", 43.116717, 12.790829),
   ("Unicredit Deruta", 42.982390, 12.416994)]

/-- Python dict insertion `locs[name] = v`: overwrite an existing key or
append a new binding. -/
def dictInsert (locs : List (String × ℚ × ℚ)) (name : String) (v : ℚ × ℚ) :
    List (String × ℚ × ℚ) :=
  if locs.any (·.1 == name) then
    locs.map (fun p => if p.1 == name then (name, v.1, v.2) else p)
  else locs ++ [(name, v.1, v.2)]

/-- The row loop of `get_work_locations`: for each data row with at least 3
cells whose latitude and longitude cells both parse, insert the binding;
any other row is skipped. -/
def collectZones (parseF : String → Option ℚ) (rows : List (List String)) :
    List (String × ℚ × ℚ) :=
  rows.foldl
    (fun acc row =>
      if 3 ≤ row.length then
        match parseF (row.getD 1 ""), parseF (row.getD 2 "") with
        | some lat, some lon => dictInsert acc (row.getD 0 "") (lat, lon)
        | _, _ => acc
      else acc)
    []

/-- `get_work_locations`: read the ZoneLavoro sheet (`fetch` is the outcome of
that read, `parseF` embeds Python `float` parsing); on a read error, or when
no data row yields a parseable coordinate pair, return a copy of the static
`WORK_LOCATIONS`. -/
def get_work_locations (fetch : Except String Sheet) (parseF : String → Option ℚ) :
    List (String × ℚ × ℚ) :=
  match fetch with
  | .error _ => WORK_LOCATIONS
  | .ok rows =>
    let locs := collectZones parseF (rows.drop 1)
    if locs.isEmpty then WORK_LOCATIONS else locs

/-! ### Scheduler and reminders -/

/-- The module-level guards `_last_ingresso_date` / `_last_uscita_date`. -/
structure SchedState where
  lastIngresso : Option PDate
  lastUscita : Option PDate
deriving DecidableEq, Repr

/-- One wake of the scheduler loop: the local date and the `"%H:%M"` string
read from the wall clock. -/
structure Tick where
  day : PDate
  hhmm : String
deriving DecidableEq, Repr

/-- One iteration of the `while True` body of `scheduler_loop`: fire the
08:30 check-in reminder and/or the 16:00 check-out reminder when the time
string matches and the trigger's guard date differs from today, recording
today against the fired trigger.  Returns the new guards and whether each
trigger fired. -/
def scheduler_step (st : SchedState) (t : Tick) : SchedState × Bool × Bool :=
  let fireIng := t.hhmm == "08:30" && !(st.lastIngresso == some t.day)
  let st1 := if fireIng then { st with lastIngresso := some t.day } else st
  let fireUsc := t.hhmm == "16:00" && !(st1.lastUscita == some t.day)
  let st2 := if fireUsc then { st1 with lastUscita := some t.day } else st1
  (st2, fireIng, fireUsc)

/-- Run the scheduler body over a sequence of wake ticks, counting how many
times each trigger fired. -/
def scheduler_run (st : SchedState) : List Tick → SchedState × Nat × Nat
  | [] => (st, 0, 0)
  | t :: ts =>
    let step := scheduler_step st t
    let rest := scheduler_run step.1 ts
    (rest.1, (if step.2.1 then 1 else 0) + rest.2.1,
      (if step.2.2 then 1 else 0) + rest.2.2)

/-- `remind_ingresso`: on a weekend weekday (`weekday() >= 5`, Monday = 0) or
an empty ledger send nothing; otherwise send one reminder to every user seen
in the ledger who has no check-in time recorded for today.  Returns the user
keys a send is attempted for. -/
def remind_ingresso (weekday : Nat) (today : String) (rows : Sheet) : List String :=
  if 5 ≤ weekday then []
  else if rows.length < 2 then []
  else
    let all_users :=
      (((rows.drop 1).filter (fun r => decide (1 < r.length) && !(r.getD 1 "" == ""))).map
        (·.getD 1 "")).eraseDups
    let registered_today :=
      (((rows.drop 1).filter (fun r =>
          decide (2 < r.length) && (r.getD 0 "" == today) && !(r.getD 2 "" == ""))).map
        (·.getD 1 "")).eraseDups
    all_users.filter (fun u => !registered_today.contains u)

/-- `remind_uscita`: on a weekend weekday or an empty ledger send nothing;
otherwise send one reminder to every user with a check-in time today but no
check-out time today.  Returns the user keys a send is attempted for. -/
def remind_uscita (weekday : Nat) (today : String) (rows : Sheet) : List String :=
  if 5 ≤ weekday then []
  else if rows.length < 2 then []
  else
    let all_users_today :=
      (((rows.drop 1).filter (fun r =>
          decide (2 < r.length) && (r.getD 0 "" == today) && !(r.getD 2 "" == ""))).map
        (·.getD 1 "")).eraseDups
    let exited_today :=
      (((rows.drop 1).filter (fun r =>
          decide (4 < r.length) && (r.getD 0 "" == today) && !(r.getD 4 "" == ""))).map
        (·.getD 1 "")).eraseDups
    all_users_today.filter (fun u => !exited_today.contains u)

/-! ### Geofence resolver (haversine over idealized reals) -/

/-- `math.radians`: degrees to radians. -/
noncomputable def radiansR (x : ℝ) : ℝ := x * Real.pi / 180

/-- `math.atan2 y x`: the two-argument arctangent. -/
noncomputable def atan2 (y x : ℝ) : ℝ :=
  if 0 < x then Real.arctan (y / x)
  else if x < 0 ∧ 0 ≤ y then Real.arctan (y / x) + Real.pi
  else if x < 0 then Real.arctan (y / x) - Real.pi
  else if 0 < y then Real.pi / 2
  else if y < 0 then -(Real.pi / 2)
  else 0

/-- The haversine great-circle distance in metres, Earth radius 6 371 000 m. -/
noncomputable def haversine (lat1 lon1 lat2 lon2 : ℝ) : ℝ :=
  let R : ℝ := 6371000
  let dlat := radiansR (lat2 - lat1)
  let dlon := radiansR (lon2 - lon1)
  let a := Real.sin (dlat / 2) ^ 2 +
    Real.cos (radiansR lat1) * Real.cos (radiansR lat2) * Real.sin (dlon / 2) ^ 2
  R * 2 * atan2 (Real.sqrt a) (Real.sqrt (1 - a))

/-- The per-zone acceptance radius used by `check_location` (a single
configured constant for every zone). -/
def MAX_DISTANCE_METERS : ℝ := 200

/-- The acceptance test of the `check_location` loop body for one zone. -/
def withinZone (lat lon : ℝ) (z : String × ℝ × ℝ) : Prop :=
  haversine lat lon z.2.1 z.2.2 ≤ MAX_DISTANCE_METERS

open Classical in
/-- `check_location`: walk the zone dictionary in enumeration order and
return the name of the first zone whose haversine distance from the input
point is at most the acceptance radius, or `none` when no zone qualifies. -/
noncomputable def check_location (lat lon : ℝ) :
    List (String × ℝ × ℝ) → Option String
  | [] => none
  | z :: rest =>
    if withinZone lat lon z then some z.1
    else check_location lat lon rest

/-- First-match characterization of a scan that returns the label of the
first list element satisfying `P`, written from the spec's wording: the
result is `none` on the empty list, the head's name when the head qualifies,
and otherwise the result for the tail. -/
inductive FirstMatch (P : String × ℝ × ℝ → Prop) :
    List (String × ℝ × ℝ) → Option String → Prop where
  | nil : FirstMatch P [] none
  | head (z : String × ℝ × ℝ) (rest : List (String × ℝ × ℝ)) :
      P z → FirstMatch P (z :: rest) (some z.1)
  | tail (z : String × ℝ × ℝ) (rest : List (String × ℝ × ℝ))
      (r : Option String) :
      ¬ P z → FirstMatch P rest r → FirstMatch P (z :: rest) r

/-! ### Calendar grid builder -/

/-- Gregorian leap-year test. -/
def isleap (y : Nat) : Bool :=
  y % 4 == 0 && (y % 100 != 0 || y % 400 == 0)

/-- Number of days of month `m` of year `y`. -/
def mdays (y m : Nat) : Nat :=
  if m = 2 then (if isleap y then 29 else 28)
  else if m = 4 ∨ m = 6 ∨ m = 9 ∨ m = 11 then 30
  else 31

/-- Days of year `y` falling before month `m`. -/
def daysBeforeMonth (y m : Nat) : Nat :=
  ((List.range (m - 1)).map (fun k => mdays y (k + 1))).sum

/-- Proleptic-Gregorian day number of `(y, m, d)`, with day 1 being
January 1 of year 1. -/
def rataDie (y m d : Nat) : Nat :=
  365 * (y - 1) + (y - 1) / 4 - (y - 1) / 100 + (y - 1) / 400
    + daysBeforeMonth y m + d

/-- Day of week of `(y, m, d)` with Monday = 0, as Python's
`date.weekday()`. -/
def weekday (y m d : Nat) : Nat := (rataDie y m d + 6) % 7

/-- Split a flat cell list into rows of 7, driven by a fuel argument so that
the definition reduces by evaluation. -/
def chunk7Go : Nat → List Nat → List (List Nat)
  | 0, _ => []
  | _, [] => []
  | fuel + 1, l => l.take 7 :: chunk7Go fuel (l.drop 7)

/-- Split a flat cell list into rows of 7. -/
def chunk7 (l : List Nat) : List (List Nat) := chunk7Go l.length l

/-- Python `calendar.monthcalendar(y, m)` with Monday as first weekday: the
weeks of the month as rows of 7 day numbers, missing days as 0. -/
def monthcalendar (y m : Nat) : List (List Nat) :=
  let w := weekday y m 1
  let n := mdays y m
  let pad := (7 - (w + n) % 7) % 7
  chunk7 (List.replicate w 0 ++ (List.range n).map (· + 1) ++ List.replicate pad 0)

/-- Italian month name. -/
def mese_nome (month : Nat) : String :=
  ["Gennaio", "Febbraio", "Marzo", "Aprile", "Maggio", "Giugno",
   "Luglio", "Agosto", "Settembre", "Ottobre", "Novembre", "Dicembre"].getD
    (month - 1) ""

/-- One inline button of the calendar widget: visible text and callback
token. -/
structure Cell where
  text : String
  callback : String
deriving DecidableEq, Repr

/-- The padding button used for absent days. -/
def blankCell : Cell := ⟨" ", "ignore"⟩

/-- The button of an actual day: marked when it is today, carrying the
`perm:<phase>:day:<year>:<month>:<day>` selection token. -/
def dayCell (phase : String) (y m d : Nat) (today : Nat × Nat × Nat) : Cell :=
  ⟨if d = today.2.2 ∧ m = today.2.1 ∧ y = today.1
      then "🔵" ++ toString d else toString d,
   "perm:" ++ phase ++ ":day:" ++ toString y ++ ":" ++ toString m ++ ":"
     ++ toString d⟩

/-- The calendar widget layout produced by `kb.adjust(1, 7, 7 x 6, 2)`:
title row, weekday-name row, six week rows, navigation row. -/
structure CalendarMarkup where
  title : Cell
  header : List Cell
  weeks : List (List Cell)
  nav : List Cell
deriving DecidableEq, Repr

/-- `build_calendar`: render the month grid, padding the week list with
all-blank rows until it has 6 rows, then emit one button per cell plus the
title, weekday headers and the two navigation buttons.  `today` is the local
date read from the wall clock, used only to mark the current day. -/
def build_calendar (y m : Nat) (phase : String) (today : Nat × Nat × Nat) :
    CalendarMarkup :=
  let weeks0 := monthcalendar y m
  let weeks := weeks0 ++ List.replicate (6 - weeks0.length) (List.replicate 7 0)
  { title := ⟨mese_nome m ++ " " ++ toString y, "ignore"⟩
    header := ["Lu", "Ma", "Me", "Gi", "Ve", "Sa", "Do"].map (⟨·, "ignore"⟩)
    weeks := weeks.map (fun wk => wk.map (fun d =>
      if d = 0 then blankCell else dayCell phase y m d today))
    nav := [⟨"◀️", "perm:" ++ phase ++ ":nav:" ++ toString y ++ ":"
              ++ toString m ++ ":prev"⟩,
            ⟨"▶️", "perm:" ++ phase ++ ":nav:" ++ toString y ++ ":"
              ++ toString m ++ ":next"⟩] }

/-! ## Theorems -/

/-- C1: `save_ingresso` appends exactly one record (with empty check-out
cells 4 and 5) and returns `true` when no data row already matches
`(today, user_id)`, and returns `false` leaving the sheet unchanged when one
does. -/
theorem save_ingresso_spec (rows : Sheet) (today user_id time_str location_name : String) :
    ((¬ ∃ row ∈ rows.drop 1, matchesIngresso today user_id row = true) →
      save_ingresso rows today user_id time_str location_name
        = (rows ++ [[today, user_id, time_str, location_name, "", ""]], true))
    ∧ ((∃ row ∈ rows.drop 1, matchesIngresso today user_id row = true) →
      save_ingresso rows today user_id time_str location_name = (rows, false)) := by
  constructor
  · intro h
    rw [save_ingresso, if_neg]
    intro hc
    exact h (List.any_eq_true.mp hc)
  · intro h
    rw [save_ingresso, if_pos (List.any_eq_true.mpr h)]

/-- Closed instance of `save_ingresso_spec`: a fresh check-in is appended, a
duplicate one is refused. -/
theorem save_ingresso_spec_witness :
    save_ingresso [["Data", "Utente", "Ingresso ora", "Posizione ingresso",
        "Uscita ora", "Posizione uscita"]] "01.03.2025" "Mario | 7" "08:05" "Iveco Vasto"
      = ([["Data", "Utente", "Ingresso ora", "Posizione ingresso",
            "Uscita ora", "Posizione uscita"],
          ["01.03.2025", "Mario | 7", "08:05", "Iveco Vasto", "", ""]], true)
    ∧ save_ingresso [["Data", "Utente", "Ingresso ora", "Posizione ingresso",
        "Uscita ora", "Posizione uscita"],
        ["01.03.2025", "Mario | 7", "08:05", "Iveco Vasto", "", ""]]
        "01.03.2025" "Mario | 7" "08:30" "Iveco Vasto"
      = ([["Data", "Utente", "Ingresso ora", "Posizione ingresso",
            "Uscita ora", "Posizione uscita"],
          ["01.03.2025", "Mario | 7", "08:05", "Iveco Vasto", "", ""]], false) :=
  ⟨(save_ingresso_spec _ _ _ _ _).1 (by decide),
   (save_ingresso_spec _ _ _ _ _).2 (by decide)⟩

theorem setCell_getElem?_self (r : List String) (idx : Nat) (v : String) :
    (setCell r idx v)[idx]? = some v := by
  unfold setCell
  split
  · exact List.getElem?_set_eq_of_lt v (by assumption)
  · rename_i h
    rw [List.getElem?_append_right (by simp; omega)]
    have h0 : idx - (r ++ List.replicate (idx - r.length) "").length = 0 := by
      simp
      omega
    rw [h0]
    rfl

theorem setCell_getElem?_ne (r : List String) (idx : Nat) (v : String) (k : Nat)
    (hle : idx ≤ r.length) (hk : k ≠ idx) :
    (setCell r idx v)[k]? = r[k]? := by
  unfold setCell
  split
  · exact List.getElem?_set_ne (Ne.symm hk)
  · rename_i h
    have hidx : idx = r.length := by omega
    subst hidx
    rw [Nat.sub_self, List.replicate_zero, List.append_nil]
    rcases Nat.lt_or_ge k r.length with hlt | hge
    · rw [List.getElem?_append_left hlt]
    · rw [List.getElem?_append_right hge]
      have h1 : [v][k - r.length]? = (none : Option String) :=
        List.getElem?_eq_none_iff.mpr (by simp; omega)
      have h2 : r[k]? = (none : Option String) := List.getElem?_eq_none_iff.mpr hge
      rw [h1, h2]

theorem fillUscita_length_ge (t loc : String) (row : List String)
    (h : 4 < row.length) : 4 < (setCell row 4 t).length := by
  unfold setCell
  split <;> simp <;> omega

theorem save_uscita_scan_none (today uid t loc : String) (l : List (List String))
    (h : ∀ row ∈ l, isOpenUscita today uid row = false) :
    save_uscita_scan today uid t loc l = none := by
  induction l with
  | nil => rfl
  | cons row rest ih =>
    rw [save_uscita_scan]
    rw [if_neg (by simp [h row (by simp)])]
    rw [ih (fun r hr => h r (by simp [hr]))]
    rfl

theorem save_uscita_scan_found (today uid t loc : String)
    (pre : List (List String)) (row : List String) (post : List (List String))
    (hpre : ∀ r ∈ pre, isOpenUscita today uid r = false)
    (hrow : isOpenUscita today uid row = true) :
    save_uscita_scan today uid t loc (pre ++ row :: post)
      = some (pre ++ fillUscita t loc row :: post) := by
  induction pre with
  | nil =>
    simp only [List.nil_append]
    rw [save_uscita_scan, if_pos hrow]
  | cons r rest ih =>
    simp only [List.cons_append]
    rw [save_uscita_scan]
    rw [if_neg (by simp [hpre r (by simp)])]
    rw [ih (fun q hq => hpre q (by simp [hq]))]
    rfl

/-- C2: `save_uscita` returns `false` with the sheet unchanged when no open
record of `(today, user_id)` exists among the data rows; when the data rows
split as `pre ++ row :: post` with `row` the first open record, it returns
`true` and the new sheet is the old one with exactly `row` replaced by
`fillUscita`, which changes only cells 4 and 5 of that row (to the check-out
time and zone) and leaves every other row — earlier rows, later rows and the
header — untouched. -/
theorem save_uscita_spec (rows : Sheet) (today user_id time_str location_name : String) :
    ((∀ row ∈ rows.drop 1, isOpenUscita today user_id row = false) →
      save_uscita rows today user_id time_str location_name = (rows, false))
    ∧ (∀ pre row post, rows.drop 1 = pre ++ row :: post →
        (∀ r ∈ pre, isOpenUscita today user_id r = false) →
        isOpenUscita today user_id row = true →
        save_uscita rows today user_id time_str location_name
          = (rows.take 1 ++ (pre ++ fillUscita time_str location_name row :: post), true)
        ∧ (∀ k, k ≠ 4 → k ≠ 5 →
            (fillUscita time_str location_name row)[k]? = row[k]?)
        ∧ (fillUscita time_str location_name row)[4]? = some time_str
        ∧ (fillUscita time_str location_name row)[5]? = some location_name) := by
  constructor
  · intro h
    rw [save_uscita, save_uscita_scan_none today user_id time_str location_name _ h]
  · intro pre row post hsplit hpre hrow
    have hlen : 4 < row.length := by
      have := hrow
      unfold isOpenUscita at this
      simp only [Bool.and_eq_true, decide_eq_true_eq] at this
      exact this.1.1.1
    have hlen4 : 4 < (setCell row 4 time_str).length :=
      fillUscita_length_ge time_str location_name row hlen
    refine ⟨?_, ?_, ?_, ?_⟩
    · rw [save_uscita, hsplit,
        save_uscita_scan_found today user_id time_str location_name pre row post hpre hrow]
    · intro k hk4 hk5
      unfold fillUscita
      rw [setCell_getElem?_ne _ 5 _ k (by omega) hk5,
        setCell_getElem?_ne _ 4 _ k (by omega) hk4]
    · unfold fillUscita
      rw [setCell_getElem?_ne _ 5 _ 4 (by omega) (by omega),
        setCell_getElem?_self]
    · unfold fillUscita
      rw [setCell_getElem?_self]

/-- Closed instance of `save_uscita_spec`: no open check-in gives `false`
with no change; an open check-in is filled in place with the other rows
unchanged. -/
theorem save_uscita_spec_witness :
    save_uscita [["Data", "Utente", "Ingresso ora", "Posizione ingresso",
        "Uscita ora", "Posizione uscita"]] "01.03.2025" "Mario | 7" "17:00" "Iveco Vasto"
      = ([["Data", "Utente", "Ingresso ora", "Posizione ingresso",
            "Uscita ora", "Posizione uscita"]], false)
    ∧ save_uscita [["Data", "Utente", "Ingresso ora", "Posizione ingresso",
        "Uscita ora", "Posizione uscita"],
        ["28.02.2025", "Mario | 7", "08:00", "Iveco Vasto", "16:55", "Iveco Vasto"],
        ["01.03.2025", "Mario | 7", "08:05", "Iveco Vasto", "", ""]]
        "01.03.2025" "Mario | 7" "17:00" "Iveco Vasto"
      = ([["Data", "Utente", "Ingresso ora", "Posizione ingresso",
            "Uscita ora", "Posizione uscita"],
          ["28.02.2025", "Mario | 7", "08:00", "Iveco Vasto", "16:55", "Iveco Vasto"],
          ["01.03.2025", "Mario | 7", "08:05", "Iveco Vasto", "17:00", "Iveco Vasto"]],
         true) := by
  constructor
  · exact (save_uscita_spec _ "01.03.2025" "Mario | 7" "17:00" "Iveco Vasto").1 (by decide)
  · have h := ((save_uscita_spec
        [["Data", "Utente", "Ingresso ora", "Posizione ingresso",
          "Uscita ora", "Posizione uscita"],
         ["28.02.2025", "Mario | 7", "08:00", "Iveco Vasto", "16:55", "Iveco Vasto"],
         ["01.03.2025", "Mario | 7", "08:05", "Iveco Vasto", "", ""]]
        "01.03.2025" "Mario | 7" "17:00" "Iveco Vasto").2
      [["28.02.2025", "Mario | 7", "08:00", "Iveco Vasto", "16:55", "Iveco Vasto"]]
      ["01.03.2025", "Mario | 7", "08:05", "Iveco Vasto", "", ""] []
      (by decide) (by decide) (by decide)).1
    rw [h]
    rfl

/-- C7: `save_permesso` returns `false` appending nothing when the end date
is strictly before the start date, and otherwise returns `true` appending
exactly one entry carrying the server-assigned `created` timestamp. -/
theorem save_permesso_spec (log : List Permesso) (user_id created : String)
    (start_date end_date : PDate) (reason : String) :
    (dateLt end_date start_date = true →
      save_permesso log user_id created start_date end_date reason = (log, false))
    ∧ (dateLt end_date start_date = false →
      save_permesso log user_id created start_date end_date reason
        = (log ++ [⟨created, user_id, start_date, end_date, reason⟩], true)) := by
  constructor <;> intro h <;> simp [save_permesso, h]

/-- Closed instance of `save_permesso_spec` on the spec's example dates. -/
theorem save_permesso_spec_witness :
    save_permesso [] "U" "01.03.2025 10:00" ⟨2025, 3, 10⟩ ⟨2025, 3, 5⟩ "x" = ([], false)
    ∧ save_permesso [] "U" "01.03.2025 10:00" ⟨2025, 3, 5⟩ ⟨2025, 3, 10⟩ "x"
      = ([⟨"01.03.2025 10:00", "U", ⟨2025, 3, 5⟩, ⟨2025, 3, 10⟩, "x"⟩], true) :=
  ⟨(save_permesso_spec _ _ _ _ _ _).1 (by decide),
   (save_permesso_spec _ _ _ _ _ _).2 (by decide)⟩

/-- C9: calendar navigation rolls the year over at the month boundaries —
`prev` from month 1 yields December of the previous year, `next` from
month 12 yields January of the next year — and otherwise changes only the
month. -/
theorem perm_nav_spec (y m : Int) :
    perm_nav y 1 "prev" = (y - 1, 12)
    ∧ perm_nav y 12 "next" = (y + 1, 1)
    ∧ (m ≠ 1 → perm_nav y m "prev" = (y, m - 1))
    ∧ (m ≠ 12 → perm_nav y m "next" = (y, m + 1)) := by
  refine ⟨rfl, rfl, ?_, ?_⟩ <;> intro h <;> simp [perm_nav, h]

/-- Closed instance of `perm_nav_spec` on the spec's examples:
`2024:1:prev ↦ (2023, 12)`, `2024:12:next ↦ (2025, 1)`, and the
non-boundary moves from June 2024. -/
theorem perm_nav_spec_witness :
    perm_nav 2024 1 "prev" = (2023, 12)
    ∧ perm_nav 2024 12 "next" = (2025, 1)
    ∧ perm_nav 2024 6 "prev" = (2024, 5)
    ∧ perm_nav 2024 6 "next" = (2024, 7) :=
  ⟨(perm_nav_spec 2024 6).1, (perm_nav_spec 2024 6).2.1,
   (perm_nav_spec 2024 6).2.2.1 (by decide), (perm_nav_spec 2024 6).2.2.2 (by decide)⟩

/-- C4 counterexample: when internal processing of an update fails, the
`/webhook` handler does not return a success acknowledgment — it returns an
error response with status 500 (while logging the failure). -/
theorem webhook_counterexample :
    (webhook (Except.error "boom")).1 = 500
    ∧ (webhook (Except.error "boom")).1 ≠ 200
    ∧ webhook (Except.error "boom")
      = (500, "error:boom", ["Errore nel webhook: boom"]) := by
  refine ⟨rfl, by decide, rfl⟩

/-- C4 amended: the `/webhook` handler returns the success acknowledgment
(status 200, body `{"ok": True}`) only when processing succeeds; on any
internal failure it logs the error and returns a status-500 error response
to the transport. -/
theorem webhook_spec (e : String) :
    webhook (Except.ok ()) = (200, "ok:true", [])
    ∧ webhook (Except.error e) = (500, "error:" ++ e, ["Errore nel webhook: " ++ e]) :=
  ⟨rfl, rfl⟩

/-- C5 counterexample: a user outside the admin set who triggers the
`zone_add_new` callback is not rejected — the handler sets the add-zone
conversation state — the `zone_edit` callback puts that user into the
rename state, and the `zone_confirm_delete` callback deletes a zone row
from the registry for any caller. -/
theorem zone_admin_counterexample :
    999 ∉ ADMINS
    ∧ zone_add_new_handler 999 none = (some .addZoneWaitLocation, "prompt_location")
    ∧ zone_edit_handler 999 "Iveco Vasto"
      = (some .renameWaitNewName, "Iveco Vasto", "prompt_new_name")
    ∧ zone_confirm_delete_handler 999
        [["Nome", "Latitudine", "Longitudine"], ["Iveco Vasto", "42.086621", "14.731960"]]
        "Iveco Vasto"
      = ([["Nome", "Latitudine", "Longitudine"]], "removed") := by
  refine ⟨by decide, rfl, rfl, rfl⟩

/-- C5 amended: only the `/addzone` and `/listzones` command handlers check
the admin set — they reject a non-admin with no state change, so an empty
admin set authorizes no one through them — while the `zone_add_new`,
`zone_edit`, `zone_delete` and `zone_confirm_delete` callback handlers
perform no authorization check at all: their behaviour is independent of
the caller's identity, `zone_add_new` and `zone_edit` change the
conversation state for any caller, and `zone_confirm_delete` performs the
registry write for any caller. -/
theorem zone_admin_auth_spec (admins : List Nat) (uid : Nat)
    (st : Option ZoneFlowState) (rows : Sheet) (name : String) :
    (uid ∉ admins →
      addzone_start admins uid st = (st, "no_permission")
      ∧ listzones_handler admins uid st = (st, "no_permission"))
    ∧ addzone_start [] uid st = (st, "no_permission")
    ∧ listzones_handler [] uid st = (st, "no_permission")
    ∧ zone_add_new_handler uid st = (some .addZoneWaitLocation, "prompt_location")
    ∧ zone_add_new_handler uid st = zone_add_new_handler 614102287 st
    ∧ zone_edit_handler uid name = (some .renameWaitNewName, name, "prompt_new_name")
    ∧ zone_edit_handler uid name = zone_edit_handler 614102287 name
    ∧ zone_delete_handler uid name = zone_delete_handler 614102287 name
    ∧ zone_confirm_delete_handler uid rows name
      = zone_confirm_delete_handler 614102287 rows name := by
  refine ⟨?_, ?_, ?_, rfl, rfl, rfl, rfl, rfl, rfl⟩
  · intro h
    constructor <;> simp [addzone_start, listzones_handler, h]
  · simp [addzone_start]
  · simp [listzones_handler]

/-- Closed instance of `zone_admin_auth_spec`: user 999 is rejected by the
gated command handlers with no state change. -/
theorem zone_admin_auth_spec_witness :
    addzone_start ADMINS 999 none = (none, "no_permission")
    ∧ listzones_handler ADMINS 999 none = (none, "no_permission") :=
  (zone_admin_auth_spec ADMINS 999 none [] "").1 (by decide)

theorem collectZones_cons_skip (parseF : String → Option ℚ) (row : List String)
    (rest : List (List String)) (acc : List (String × ℚ × ℚ))
    (h : ¬(3 ≤ row.length ∧ (parseF (row.getD 1 "")).isSome
        ∧ (parseF (row.getD 2 "")).isSome)) :
    (row :: rest).foldl
        (fun acc row =>
          if 3 ≤ row.length then
            match parseF (row.getD 1 ""), parseF (row.getD 2 "") with
            | some lat, some lon => dictInsert acc (row.getD 0 "") (lat, lon)
            | _, _ => acc
          else acc) acc
      = rest.foldl
          (fun acc row =>
            if 3 ≤ row.length then
              match parseF (row.getD 1 ""), parseF (row.getD 2 "") with
              | some lat, some lon => dictInsert acc (row.getD 0 "") (lat, lon)
              | _, _ => acc
            else acc) acc := by
  rw [List.foldl_cons]
  congr 1
  by_cases h3 : 3 ≤ row.length
  · rw [if_pos h3]
    cases hp : parseF (row.getD 1 "") with
    | none => rfl
    | some lat =>
      cases hq : parseF (row.getD 2 "") with
      | none => rfl
      | some lon =>
        exact absurd ⟨h3, by rw [hp]; rfl, by rw [hq]; rfl⟩ h
  · rw [if_neg h3]

theorem collectZones_all_skip (parseF : String → Option ℚ) (rows : List (List String))
    (h : ∀ row ∈ rows, ¬(3 ≤ row.length ∧ (parseF (row.getD 1 "")).isSome
        ∧ (parseF (row.getD 2 "")).isSome)) :
    collectZones parseF rows = [] := by
  induction rows with
  | nil => rfl
  | cons row rest ih =>
    unfold collectZones
    rw [collectZones_cons_skip parseF row rest [] (h row (by simp))]
    exact ih (fun r hr => h r (by simp [hr]))

/-- C10: `get_work_locations` returns the static `WORK_LOCATIONS` fallback
both when the zone-store read fails and when no data row carries a parseable
coordinate pair, and its result is never empty — so the geofence resolver
always sees a non-empty zone set and no store error escapes. -/
theorem get_work_locations_spec (fetch : Except String Sheet)
    (parseF : String → Option ℚ) :
    (∀ e, fetch = .error e → get_work_locations fetch parseF = WORK_LOCATIONS)
    ∧ (∀ rows, fetch = .ok rows →
        (∀ row ∈ rows.drop 1, ¬(3 ≤ row.length ∧ (parseF (row.getD 1 "")).isSome
            ∧ (parseF (row.getD 2 "")).isSome)) →
        get_work_locations fetch parseF = WORK_LOCATIONS)
    ∧ get_work_locations fetch parseF ≠ [] := by
  refine ⟨?_, ?_, ?_⟩
  · intro e he
    rw [he]
    rfl
  · intro rows hr hskip
    rw [hr]
    show (if (collectZones parseF (rows.drop 1)).isEmpty then WORK_LOCATIONS
      else collectZones parseF (rows.drop 1)) = WORK_LOCATIONS
    rw [collectZones_all_skip parseF (rows.drop 1) hskip]
    rfl
  · cases fetch with
    | error e => simp [get_work_locations, WORK_LOCATIONS]
    | ok rows =>
      show (if (collectZones parseF (rows.drop 1)).isEmpty then WORK_LOCATIONS
        else collectZones parseF (rows.drop 1)) ≠ []
      split
      · simp [WORK_LOCATIONS]
      · rename_i hne
        simpa [List.isEmpty_iff] using hne

/-- Closed instance of `get_work_locations_spec`: a failed read and an
unparseable sheet both fall back to the static zones, which are non-empty. -/
theorem get_work_locations_spec_witness :
    get_work_locations (.error "rete giu") (fun _ => none) = WORK_LOCATIONS
    ∧ get_work_locations
        (.ok [["Nome", "Latitudine", "Longitudine"], ["X", "abc", "def"]])
        (fun _ => none) = WORK_LOCATIONS
    ∧ get_work_locations (.error "rete giu") (fun _ => none) ≠ [] :=
  ⟨(get_work_locations_spec _ _).1 "rete giu" rfl,
   (get_work_locations_spec (.ok [["Nome", "Latitudine", "Longitudine"],
      ["X", "abc", "def"]]) (fun _ => none)).2.1 _ rfl (by decide),
   (get_work_locations_spec _ _).2.2⟩

theorem scheduler_step_fireIng (st : SchedState) (t : Tick) :
    (scheduler_step st t).2.1
      = (t.hhmm == "08:30" && !(st.lastIngresso == some t.day)) := by
  simp only [scheduler_step]

theorem scheduler_step_lastIngresso (st : SchedState) (t : Tick) :
    (scheduler_step st t).1.lastIngresso
      = (if (scheduler_step st t).2.1 then some t.day else st.lastIngresso) := by
  simp only [scheduler_step]
  split <;> split <;> rfl

theorem scheduler_step_fireUsc (st : SchedState) (t : Tick) :
    (scheduler_step st t).2.2
      = (t.hhmm == "16:00" && !(st.lastUscita == some t.day)) := by
  simp only [scheduler_step]
  split <;> rfl

theorem scheduler_step_lastUscita (st : SchedState) (t : Tick) :
    (scheduler_step st t).1.lastUscita
      = (if (scheduler_step st t).2.2 then some t.day else st.lastUscita) := by
  simp only [scheduler_step]
  split <;> split <;> rfl

theorem scheduler_run_ing_zero (d : PDate) (ticks : List Tick) :
    ∀ st : SchedState, st.lastIngresso = some d → (∀ t ∈ ticks, t.day = d) →
      (scheduler_run st ticks).2.1 = 0 := by
  induction ticks with
  | nil => intro st _ _; rfl
  | cons t ts ih =>
    intro st hst hd
    have htd : t.day = d := hd t (by simp)
    have hfire : (scheduler_step st t).2.1 = false := by
      rw [scheduler_step_fireIng, htd, hst]
      simp
    have hrest : (scheduler_run (scheduler_step st t).1 ts).2.1 = 0 := by
      apply ih
      · rw [scheduler_step_lastIngresso, hfire, if_neg (by simp), hst]
      · intro x hx
        exact hd x (by simp [hx])
    rw [scheduler_run]
    simp [hfire, hrest]

theorem scheduler_run_usc_zero (d : PDate) (ticks : List Tick) :
    ∀ st : SchedState, st.lastUscita = some d → (∀ t ∈ ticks, t.day = d) →
      (scheduler_run st ticks).2.2 = 0 := by
  induction ticks with
  | nil => intro st _ _; rfl
  | cons t ts ih =>
    intro st hst hd
    have htd : t.day = d := hd t (by simp)
    have hfire : (scheduler_step st t).2.2 = false := by
      rw [scheduler_step_fireUsc, htd, hst]
      simp
    have hrest : (scheduler_run (scheduler_step st t).1 ts).2.2 = 0 := by
      apply ih
      · rw [scheduler_step_lastUscita, hfire, if_neg (by simp), hst]
      · intro x hx
        exact hd x (by simp [hx])
    rw [scheduler_run]
    simp [hfire, hrest]

theorem scheduler_run_ing_le_one (d : PDate) (ticks : List Tick) :
    ∀ st : SchedState, (∀ t ∈ ticks, t.day = d) →
      (scheduler_run st ticks).2.1 ≤ 1 := by
  induction ticks with
  | nil => intro st _; simp [scheduler_run]
  | cons t ts ih =>
    intro st hd
    have htl : ∀ x ∈ ts, x.day = d := fun x hx => hd x (by simp [hx])
    rw [scheduler_run]
    by_cases hf : (scheduler_step st t).2.1 = true
    · have hlast : (scheduler_step st t).1.lastIngresso = some d := by
        rw [scheduler_step_lastIngresso, hf, if_pos rfl, hd t (by simp)]
      have hz := scheduler_run_ing_zero d ts (scheduler_step st t).1 hlast htl
      simp [hf, hz]
    · simp only [Bool.not_eq_true] at hf
      have := ih (scheduler_step st t).1 htl
      simp [hf]
      omega

theorem scheduler_run_usc_le_one (d : PDate) (ticks : List Tick) :
    ∀ st : SchedState, (∀ t ∈ ticks, t.day = d) →
      (scheduler_run st ticks).2.2 ≤ 1 := by
  induction ticks with
  | nil => intro st _; simp [scheduler_run]
  | cons t ts ih =>
    intro st hd
    have htl : ∀ x ∈ ts, x.day = d := fun x hx => hd x (by simp [hx])
    rw [scheduler_run]
    by_cases hf : (scheduler_step st t).2.2 = true
    · have hlast : (scheduler_step st t).1.lastUscita = some d := by
        rw [scheduler_step_lastUscita, hf, if_pos rfl, hd t (by simp)]
      have hz := scheduler_run_usc_zero d ts (scheduler_step st t).1 hlast htl
      simp [hf, hz]
    · simp only [Bool.not_eq_true] at hf
      have := ih (scheduler_step st t).1 htl
      simp [hf]
      omega

/-- C6: over any sequence of scheduler wakes falling on one calendar day,
each of the two reminder triggers fires at most once, however many wakes
land inside the trigger minute; and on a weekend weekday
(`weekday() ∈ {5, 6}`) both reminder fan-outs send nothing regardless of the
time of day. -/
theorem scheduler_reminder_spec (st : SchedState) (d : PDate) (ticks : List Tick)
    (wd : Nat) (today : String) (rows : Sheet) :
    ((∀ t ∈ ticks, t.day = d) →
      (scheduler_run st ticks).2.1 ≤ 1 ∧ (scheduler_run st ticks).2.2 ≤ 1)
    ∧ (5 ≤ wd →
      remind_ingresso wd today rows = [] ∧ remind_uscita wd today rows = []) := by
  constructor
  · intro hd
    exact ⟨scheduler_run_ing_le_one d ticks st hd, scheduler_run_usc_le_one d ticks st hd⟩
  · intro hwd
    constructor
    · rw [remind_ingresso, if_pos hwd]
    · rw [remind_uscita, if_pos hwd]

/-- Closed instance of `scheduler_reminder_spec`: three wakes inside one day
(twice inside the 08:30 minute, once at 16:00) fire each trigger at most
once, and on Sunday (weekday 6) neither reminder sends anything even with a
populated ledger. -/
theorem scheduler_reminder_spec_witness :
    ((scheduler_run ⟨none, none⟩
        [⟨⟨2025, 3, 3⟩, "08:30"⟩, ⟨⟨2025, 3, 3⟩, "08:30"⟩, ⟨⟨2025, 3, 3⟩, "16:00"⟩]).2.1 ≤ 1
      ∧ (scheduler_run ⟨none, none⟩
        [⟨⟨2025, 3, 3⟩, "08:30"⟩, ⟨⟨2025, 3, 3⟩, "08:30"⟩, ⟨⟨2025, 3, 3⟩, "16:00"⟩]).2.2 ≤ 1)
    ∧ (remind_ingresso 6 "02.03.2025"
        [["Data", "Utente", "Ingresso ora", "Posizione ingresso",
          "Uscita ora", "Posizione uscita"],
         ["01.03.2025", "Mario | 7", "08:05", "Iveco Vasto", "", ""]] = []
      ∧ remind_uscita 6 "02.03.2025"
        [["Data", "Utente", "Ingresso ora", "Posizione ingresso",
          "Uscita ora", "Posizione uscita"],
         ["01.03.2025", "Mario | 7", "08:05", "Iveco Vasto", "", ""]] = []) :=
  ⟨(scheduler_reminder_spec ⟨none, none⟩ ⟨2025, 3, 3⟩ _ 6 "02.03.2025" []).1
      (by decide),
   (scheduler_reminder_spec ⟨none, none⟩ ⟨2025, 3, 3⟩ [] 6 "02.03.2025"
      [["Data", "Utente", "Ingresso ora", "Posizione ingresso",
        "Uscita ora", "Posizione uscita"],
       ["01.03.2025", "Mario | 7", "08:05", "Iveco Vasto", "", ""]]).2
      (by decide)⟩

theorem check_location_firstMatch (lat lon : ℝ) (zones : List (String × ℝ × ℝ)) :
    FirstMatch (withinZone lat lon) zones (check_location lat lon zones) := by
  induction zones with
  | nil => exact FirstMatch.nil
  | cons z rest ih =>
    rw [check_location]
    by_cases h : withinZone lat lon z
    · rw [if_pos h]
      exact FirstMatch.head z rest h
    · rw [if_neg h]
      exact FirstMatch.tail z rest _ h ih

theorem check_location_isSome_iff (lat lon : ℝ) (zones : List (String × ℝ × ℝ)) :
    (check_location lat lon zones).isSome = true
      ↔ ∃ z, z ∈ zones ∧ withinZone lat lon z := by
  induction zones with
  | nil =>
    rw [check_location]
    simp
  | cons z rest ih =>
    rw [check_location]
    by_cases h : withinZone lat lon z
    · rw [if_pos h]
      simp only [Option.isSome_some, true_iff]
      exact ⟨z, by simp, h⟩
    · rw [if_neg h, ih]
      constructor
      · rintro ⟨w, hw, hwin⟩
        exact ⟨w, by simp [hw], hwin⟩
      · rintro ⟨w, hw, hwin⟩
        rcases List.mem_cons.mp hw with rfl | hmem
        · exact absurd hwin h
        · exact ⟨w, hmem, hwin⟩

/-- C3: `check_location` realizes the first-match geofence policy over the
haversine distance with Earth radius 6 371 000 m — its result satisfies the
spec-side `FirstMatch` relation (head zone within 200 m wins, otherwise
recurse), it returns a name exactly when some zone of the set lies within
the acceptance radius of the point, and it returns `none` exactly when no
zone does. -/
theorem check_location_spec (lat lon : ℝ) (zones : List (String × ℝ × ℝ)) :
    FirstMatch (withinZone lat lon) zones (check_location lat lon zones)
    ∧ ((check_location lat lon zones).isSome = true
        ↔ ∃ z, z ∈ zones ∧ withinZone lat lon z)
    ∧ (check_location lat lon zones = none
        ↔ ∀ z ∈ zones, ¬ withinZone lat lon z) := by
  refine ⟨check_location_firstMatch lat lon zones,
    check_location_isSome_iff lat lon zones, ?_⟩
  rw [← Option.not_isSome_iff_eq_none, check_location_isSome_iff]
  push_neg
  constructor
  · intro h z hz
    exact h z hz
  · intro h z hz
    exact h z hz

theorem mdays_le (y m : Nat) : mdays y m ≤ 31 := by
  unfold mdays
  split
  · split <;> omega
  · split <;> omega

theorem weekday_lt (y m d : Nat) : weekday y m d < 7 :=
  Nat.mod_lt _ (by omega)

theorem chunk7Go_spec (fuel : Nat) : ∀ l : List Nat,
    l.length ≤ fuel → l.length % 7 = 0 →
      (chunk7Go fuel l).length = l.length / 7
      ∧ ∀ wk ∈ chunk7Go fuel l, wk.length = 7 := by
  induction fuel with
  | zero =>
    intro l hl _
    have hnil : l = [] := List.eq_nil_of_length_eq_zero (by omega)
    subst hnil
    simp [chunk7Go]
  | succ n ih =>
    intro l hl hmod
    cases l with
    | nil => simp [chunk7Go]
    | cons a as =>
      have hge : 7 ≤ (a :: as).length := by
        simp only [List.length_cons]
        simp only [List.length_cons] at hmod
        omega
      have ih' := ih ((a :: as).drop 7)
        (by simp only [List.length_drop]; omega)
        (by simp only [List.length_drop]; omega)
      have hstep : chunk7Go (n + 1) (a :: as)
          = (a :: as).take 7 :: chunk7Go n ((a :: as).drop 7) := rfl
      rw [hstep]
      constructor
      · rw [List.length_cons, ih'.1, List.length_drop]
        omega
      · intro wk hwk
        rcases List.mem_cons.mp hwk with rfl | hmem
        · rw [List.length_take]
          omega
        · exact ih'.2 wk hmem

theorem monthcalendar_spec (y m : Nat) :
    (monthcalendar y m).length ≤ 6
    ∧ ∀ wk ∈ monthcalendar y m, wk.length = 7 := by
  have hw : weekday y m 1 < 7 := weekday_lt y m 1
  have hn : mdays y m ≤ 31 := mdays_le y m
  unfold monthcalendar chunk7
  set w := weekday y m 1 with hwdef
  set n := mdays y m with hndef
  set l := List.replicate w (0 : Nat) ++ (List.range n).map (· + 1)
    ++ List.replicate ((7 - (w + n) % 7) % 7) 0 with hldef
  have hlen : l.length = w + n + (7 - (w + n) % 7) % 7 := by
    rw [hldef]
    simp [List.length_append, List.length_replicate, List.length_map,
      List.length_range]
    omega
  have hmod : l.length % 7 = 0 := by
    rw [hlen]
    omega
  have hspec := chunk7Go_spec l.length l le_rfl hmod
  refine ⟨?_, hspec.2⟩
  rw [hspec.1, hlen]
  omega

theorem build_calendar_blank_after (y m : Nat) (phase : String)
    (today : Nat × Nat × Nat) (i : Nat) (hi : (monthcalendar y m).length ≤ i)
    (hi6 : i < 6) :
    (build_calendar y m phase today).weeks[i]?
      = some (List.replicate 7 blankCell) := by
  have hw : (build_calendar y m phase today).weeks
      = (monthcalendar y m
          ++ List.replicate (6 - (monthcalendar y m).length) (List.replicate 7 0)).map
        (fun (wk : List Nat) => wk.map (fun (d : Nat) =>
          if d = 0 then blankCell else dayCell phase y m d today)) := rfl
  rw [hw, List.getElem?_map, List.getElem?_append_right hi,
    List.getElem?_replicate_of_lt (by omega)]
  rfl

/-- C8: `build_calendar` always renders exactly 6 week-rows of 7 day-cells,
every row past the weeks the month actually spans being fully blank-padded;
in particular February 2024 (5 calendar weeks) renders with a fully blank
6th row. -/
theorem build_calendar_spec (y m : Nat) (phase : String) (today : Nat × Nat × Nat) :
    (build_calendar y m phase today).weeks.length = 6
    ∧ (∀ wk ∈ (build_calendar y m phase today).weeks, wk.length = 7)
    ∧ (∀ i, (monthcalendar y m).length ≤ i → i < 6 →
        (build_calendar y m phase today).weeks[i]?
          = some (List.replicate 7 blankCell))
    ∧ (build_calendar 2024 2 "start" (2024, 2, 29)).weeks[5]?
      = some (List.replicate 7 blankCell) := by
  obtain ⟨hle, hlen7⟩ := monthcalendar_spec y m
  refine ⟨?_, ?_, build_calendar_blank_after y m phase today, ?_⟩
  · show ((monthcalendar y m
        ++ List.replicate (6 - (monthcalendar y m).length) (List.replicate 7 0)).map
          _).length = 6
    rw [List.length_map, List.length_append, List.length_replicate]
    omega
  · intro wk hwk
    rcases List.mem_map.mp hwk with ⟨wk0, hwk0, rfl⟩
    rw [List.length_map]
    rcases List.mem_append.mp hwk0 with hmem | hmem
    · exact hlen7 wk0 hmem
    · rw [List.eq_of_mem_replicate hmem, List.length_replicate]
  · exact build_calendar_blank_after 2024 2 "start" (2024, 2, 29) 5
      (by rw [show (monthcalendar 2024 2).length = 5 from rfl]) (by omega)

/-- Closed instance of `check_location_spec`: over the empty zone set the
resolver returns `none`. -/
theorem check_location_spec_witness : check_location 0 0 [] = none :=
  (check_location_spec 0 0 []).2.2.mpr (fun z hz => absurd hz (List.not_mem_nil z))

/-- Closed instance of `build_calendar_spec` on February 2024: the grid has
6 week-rows and the 6th is fully blank. -/
theorem build_calendar_spec_witness :
    (build_calendar 2024 2 "start" (2024, 2, 29)).weeks.length = 6
    ∧ (build_calendar 2024 2 "start" (2024, 2, 29)).weeks[5]?
      = some (List.replicate 7 blankCell) :=
  ⟨(build_calendar_spec 2024 2 "start" (2024, 2, 29)).1,
   (build_calendar_spec 2024 2 "start" (2024, 2, 29)).2.2.1 5
     (by rw [show (monthcalendar 2024 2).length = 5 from rfl]) (by omega)⟩

end RegistroBot
